import Mathlib

/-!
Verification of the MedusaOnMe/Launchpad bonding-curve trading engine.

Each definition below is a shallow embedding of a function of the TypeScript
source, translated statement by statement.  JavaScript numbers are modelled
as exact rationals (`ℚ`); JavaScript division is modelled by `ℚ` division
(which returns `0` on a zero denominator where JavaScript would produce
`Infinity`/`NaN` — every theorem below only reads fields whose computation
stays clear of zero denominators, or carries explicit hypotheses).
`Math.floor` is modelled by `Int.floor`, `Math.min` by `min`, and JavaScript
`Map`s keyed by insertion order are modelled as `List`s in insertion order.
-/

/-! ## ServerSolanaService (src/server/solana-integration.ts)

`executeTokenTrade` (lines 199-378) computes the constant-product trade
amounts at lines 226-260 and always returns `success: true` from the math
path (line 362); there is no liquidity, slippage or graduation rejection
anywhere in the function. -/

namespace ServerSolanaService

/-- Constant `TOTAL_SUPPLY` (line 226). -/
def TOTAL_SUPPLY : ℚ := 1000000000

/-- Constant `GRADUATION_THRESHOLD` (line 227). -/
def GRADUATION_THRESHOLD : ℚ := 69000

/-- Constant `INITIAL_VIRTUAL_SOL` (line 228). -/
def INITIAL_VIRTUAL_SOL : ℚ := 30

/-- Constant `INITIAL_VIRTUAL_TOKENS` (line 229). -/
def INITIAL_VIRTUAL_TOKENS : ℚ := 1073000000

/-- Result of the trade computation of `executeTokenTrade`: the fields of the
object returned at lines 354-363 that are produced by the curve arithmetic. -/
structure TradeCalc where
  amountOut : ℚ
  newSolReserves : ℚ
  newTokenReserves : ℚ
  newPrice : ℚ
  priceImpact : ℚ
  marketCap : ℚ
  isGraduated : Bool
  success : Bool
deriving DecidableEq

/-- Lines 235-260 of `executeTokenTrade`, with the pool state the code reads
into `currentSolReserves` / `currentTokenReserves` at lines 232-233 passed
explicitly.  `priceImpact` is `|newPrice - oldPrice| / oldPrice * 100`
(line 258); the source multiplies by `100`, not `10000`. -/
def executeTokenTradeCalc (currentSolReserves currentTokenReserves amountIn : ℚ)
    (isBuy : Bool) : TradeCalc :=
  let k := currentSolReserves * currentTokenReserves
  let newSolReserves := if isBuy then currentSolReserves + amountIn
    else k / (currentTokenReserves + amountIn)
  let newTokenReserves := if isBuy then k / (currentSolReserves + amountIn)
    else currentTokenReserves + amountIn
  let amountOut := if isBuy then currentTokenReserves - newTokenReserves
    else currentSolReserves - newSolReserves
  let circulating := TOTAL_SUPPLY - newTokenReserves
  let newPrice := newSolReserves / circulating
  let oldPrice := currentSolReserves / (TOTAL_SUPPLY - currentTokenReserves)
  let priceImpact := |(newPrice - oldPrice) / oldPrice| * 100
  let marketCap := newSolReserves
  { amountOut := amountOut
    newSolReserves := newSolReserves
    newTokenReserves := newTokenReserves
    newPrice := newPrice
    priceImpact := priceImpact
    marketCap := marketCap
    isGraduated := decide (marketCap ≥ GRADUATION_THRESHOLD)
    success := true }

/-- `executeTokenTrade` proper: the code initialises the pool state from the
virtual-reserve constants at lines 232-233 and then runs the curve math. -/
def executeTokenTrade (amountIn : ℚ) (isBuy : Bool) : TradeCalc :=
  executeTokenTradeCalc INITIAL_VIRTUAL_SOL INITIAL_VIRTUAL_TOKENS amountIn isBuy

end ServerSolanaService

namespace ServerSolanaService

theorem executeTokenTradeCalc_buy_amountOut (q b a : ℚ) :
    (executeTokenTradeCalc q b a true).amountOut = b - b * q / (q + a) := by
  simp [executeTokenTradeCalc]
  ring_nf

end ServerSolanaService

/-- C1: on the buy path of `executeTokenTrade`, for every pool state
`(baseReserve, quoteReserve) = (b, q)` the computed output is
`amountOut = b - b * q / (q + amountIn)`, and for the pool state the code
actually reads — the default reserves `baseReserve = 1073000000`,
`quoteReserve = 30` — a buy of `amountIn = 10` yields exactly
`amountOut = 268250000` (within the claimed one-unit rounding bound) and the
quote collected by the curve (`newSolReserves`, also reported as `marketCap`)
becomes `40`. -/
theorem C1_buy_formula_and_default_scenario :
    (∀ q b a : ℚ, (ServerSolanaService.executeTokenTradeCalc q b a true).amountOut
        = b - b * q / (q + a))
    ∧ (ServerSolanaService.executeTokenTrade 10 true).amountOut = 268250000
    ∧ (ServerSolanaService.executeTokenTrade 10 true).newSolReserves = 40
    ∧ (ServerSolanaService.executeTokenTrade 10 true).marketCap = 40 := by
  refine ⟨ServerSolanaService.executeTokenTradeCalc_buy_amountOut, ?_, ?_, ?_⟩ <;>
    norm_num [ServerSolanaService.executeTokenTrade,
      ServerSolanaService.executeTokenTradeCalc,
      ServerSolanaService.INITIAL_VIRTUAL_SOL,
      ServerSolanaService.INITIAL_VIRTUAL_TOKENS]

/-- C2 counterexample: the claim says a buy whose computed `amountOut` reaches
`baseReserve` fails with `InsufficientLiquidity`, but `executeTokenTrade`
contains no such check (the identifier `InsufficientLiquidity` appears nowhere
in the repository): at the default pool state, the buy with `amountIn = -40`
(the route only rejects a missing or zero `amountIn`) computes
`amountOut = 4292000000 ≥ 1073000000 = baseReserve` yet the trade still
completes with `success = true`. -/
theorem C2_counterexample_no_liquidity_check :
    (ServerSolanaService.executeTokenTrade (-40) true).amountOut = 4292000000
    ∧ ((4292000000 : ℚ) ≥ ServerSolanaService.INITIAL_VIRTUAL_TOKENS)
    ∧ (ServerSolanaService.executeTokenTrade (-40) true).success = true := by
  refine ⟨?_, by norm_num [ServerSolanaService.INITIAL_VIRTUAL_TOKENS], ?_⟩ <;>
    norm_num [ServerSolanaService.executeTokenTrade,
      ServerSolanaService.executeTokenTradeCalc,
      ServerSolanaService.INITIAL_VIRTUAL_SOL,
      ServerSolanaService.INITIAL_VIRTUAL_TOKENS]

/-- C2 amended: `executeTokenTrade` performs no liquidity check and has no
`InsufficientLiquidity` error — the computation always completes with
`success = true`; nevertheless, for every pool state with positive reserves
and every positive `amountIn`, the computed buy `amountOut` is strictly less
than `baseReserve`, so on such states a buy can never fully drain the curve. -/
theorem C2_amended_no_drain (q b a : ℚ) (hq : 0 < q) (hb : 0 < b) (ha : 0 < a) :
    (ServerSolanaService.executeTokenTradeCalc q b a true).amountOut < b
    ∧ (ServerSolanaService.executeTokenTradeCalc q b a true).success = true := by
  constructor
  · rw [ServerSolanaService.executeTokenTradeCalc_buy_amountOut]
    have hqa : 0 < q + a := by linarith
    have : 0 < b * q / (q + a) := by positivity
    linarith
  · rfl

/-- C2 amended, witness at the default pool state with a buy of `10`. -/
theorem C2_amended_no_drain_witness :
    (ServerSolanaService.executeTokenTradeCalc 30 1073000000 10 true).amountOut
      < 1073000000
    ∧ (ServerSolanaService.executeTokenTradeCalc 30 1073000000 10 true).success
      = true :=
  C2_amended_no_drain 30 1073000000 10 (by norm_num) (by norm_num) (by norm_num)

/-! ## NewBondingCurveService (src/unnamed/part_005)

`executeBondingCurveTrade` (lines 64-125) rejects every sell at lines 72-74
(`throw new Error('Sell functionality not implemented yet')`, caught at line
113 and returned as a failure result); buys proceed against the hard-coded
state `currentSupply = 800000000`, `solCollected = 15.5` (lines 77-78). -/

namespace NewBondingCurveService

/-- Constant `GRADUATION_THRESHOLD` (line 23). -/
def GRADUATION_THRESHOLD : ℚ := 69

/-- Constant `INITIAL_SUPPLY` (line 24). -/
def INITIAL_SUPPLY : ℚ := 1000000000

/-- Constant `CURVE_CONSTANT = 0.000001` (line 25). -/
def CURVE_CONSTANT : ℚ := 1 / 1000000

/-- `calculatePrice` (lines 34-37). -/
def calculatePrice (currentSupply : ℚ) : ℚ :=
  CURVE_CONSTANT * (INITIAL_SUPPLY - currentSupply)

/-- The `while` loop of `calculateTokensForSOL` (lines 44-58), made structural
with a fuel argument; the loop decreases `supply` by at least `1000` per full
chunk or terminates, so any fuel above `supply / 1000 + 1` is exact. -/
def calculateTokensForSOLLoop : ℕ → ℚ → ℚ → ℚ → ℚ
  | 0, _, tokensReceived, _ => tokensReceived
  | fuel + 1, remainingSol, tokensReceived, supply =>
    if 0 < remainingSol ∧ 0 < supply then
      let currentPrice := calculatePrice supply
      let tokensAtPrice := min 1000 supply
      let costForTokens := currentPrice * tokensAtPrice
      if costForTokens ≤ remainingSol then
        calculateTokensForSOLLoop fuel (remainingSol - costForTokens)
          (tokensReceived + tokensAtPrice) (supply - tokensAtPrice)
      else
        tokensReceived + (Int.floor (remainingSol / currentPrice) : ℚ)
    else tokensReceived

/-- `calculateTokensForSOL` (lines 39-62), returning the `tokensOut`
component; the fuel `800001` dominates the iteration count for the supply the
service actually uses (`800000000` in chunks of `1000`). -/
def calculateTokensForSOL (solAmount currentSupply : ℚ) : ℚ :=
  calculateTokensForSOLLoop 800001 solAmount 0 currentSupply

/-- Result shape `BondingCurveResult` (lines 10-19). -/
structure BondingCurveResult where
  success : Bool
  tokensAmount : ℚ
  newPrice : ℚ
  solCollected : ℚ
  isGraduated : Bool
  error : Option String
deriving DecidableEq

/-- `executeBondingCurveTrade` (lines 64-125): sells throw and are returned
as the catch-block failure result (lines 113-124); buys run the curve on the
hard-coded state and return `success: true`. -/
def executeBondingCurveTrade (amountIn : ℚ) (isBuy : Bool) : BondingCurveResult :=
  if !isBuy then
    { success := false, tokensAmount := 0, newPrice := 0, solCollected := 0,
      isGraduated := false,
      error := some "Sell functionality not implemented yet" }
  else
    let currentSupply : ℚ := 800000000
    let solCollected : ℚ := 15.5
    let tokensOut := calculateTokensForSOL amountIn currentSupply
    let newSolCollected := solCollected + amountIn
    { success := true, tokensAmount := tokensOut,
      newPrice := calculatePrice (currentSupply - tokensOut),
      solCollected := newSolCollected,
      isGraduated := decide (newSolCollected ≥ GRADUATION_THRESHOLD),
      error := none }

end NewBondingCurveService

/-- C7 counterexample: a buy of `5` quote units is accepted by
`NewBondingCurveService.executeBondingCurveTrade`, but the sell of the same
size is rejected with `Sell functionality not implemented yet` — so sell
trades are not accepted whenever buy trades are. -/
theorem C7_counterexample_sell_rejected :
    (NewBondingCurveService.executeBondingCurveTrade 5 true).success = true
    ∧ (NewBondingCurveService.executeBondingCurveTrade 5 false).success = false
    ∧ (NewBondingCurveService.executeBondingCurveTrade 5 false).error
        = some "Sell functionality not implemented yet" :=
  ⟨rfl, rfl, rfl⟩

/-- C7 amended: on the sell path of `executeTokenTrade` the engine does apply
the constant-product formula with the roles swapped
(`newBaseReserve = baseReserve + amountIn`,
`newQuoteReserve = baseReserve * quoteReserve / newBaseReserve`,
`amountOut = quoteReserve - newQuoteReserve`); but sells are not accepted
whenever buys are: `NewBondingCurveService.executeBondingCurveTrade` rejects
every sell with `Sell functionality not implemented yet` while accepting
buys. -/
theorem C7_amended_sell_formula_buys_only :
    (∀ q b a : ℚ,
      (ServerSolanaService.executeTokenTradeCalc q b a false).newTokenReserves
          = b + a
      ∧ (ServerSolanaService.executeTokenTradeCalc q b a false).newSolReserves
          = b * q / (b + a)
      ∧ (ServerSolanaService.executeTokenTradeCalc q b a false).amountOut
          = q - b * q / (b + a))
    ∧ (NewBondingCurveService.executeBondingCurveTrade 5 true).success = true
    ∧ (NewBondingCurveService.executeBondingCurveTrade 5 false).success
        = false := by
  refine ⟨fun q b a => ?_, rfl, rfl⟩
  refine ⟨rfl, ?_, ?_⟩ <;>
    · simp [ServerSolanaService.executeTokenTradeCalc]
      ring_nf

/-! ## The /api/tokens/trade route handler (src/unnamed/part_002, lines 616-803)

The handler resolves the token (404 if absent, lines 635-641); a graduated
token is routed to the Jupiter DEX (lines 649-669, returning 400 when the
swap fails) and a fresh token to the bonding-curve path (lines 671-717,
returning 500 when it fails, and computing
`currentSolCollected = 15.5 + amountIn` at line 687).  Every successful
branch then creates a Trade record (line 741) and answers 200 (lines
783-794).  The external Jupiter / SOL-transfer collaborators are abstracted
as the booleans `jupiterSuccess` / `simpleTradeSuccess`. -/

namespace registerRoutes

/-- The token fields the trade handler consults. -/
structure TokenRec where
  id : ℕ
  isGraduated : Bool
deriving DecidableEq

/-- The observable outcome of one handler invocation: the HTTP status,
whether a Trade record was created (line 741 is only reached on success),
and the `solCollected` / `isGraduated` fields of the 200 response (lines
789-790; both are absent, modelled as `0` / `false`, on error responses). -/
structure TradeResponse where
  status : ℕ
  tradeCreated : Bool
  solCollected : ℚ
  isGraduated : Bool
deriving DecidableEq

/-- The dispatch and bookkeeping of the `/api/tokens/trade` handler. -/
def tradeHandler (token : Option TokenRec) (jupiterSuccess simpleTradeSuccess : Bool)
    (amountIn : ℚ) : TradeResponse :=
  match token with
  | none =>
      { status := 404, tradeCreated := false, solCollected := 0, isGraduated := false }
  | some t =>
    if t.isGraduated then
      if jupiterSuccess then
        { status := 200, tradeCreated := true, solCollected := 0, isGraduated := true }
      else
        { status := 400, tradeCreated := false, solCollected := 0, isGraduated := false }
    else
      if simpleTradeSuccess then
        let currentSolCollected := 15.5 + amountIn
        { status := 200, tradeCreated := true, solCollected := currentSolCollected,
          isGraduated := decide (currentSolCollected ≥ 69) }
      else
        { status := 500, tradeCreated := false, solCollected := 0, isGraduated := false }

/-- A token with `isGraduated = true`, as stored after graduation. -/
def graduatedToken : TokenRec := { id := 1, isGraduated := true }

/-- A token still on the bonding curve. -/
def freshToken : TokenRec := { id := 2, isGraduated := false }

end registerRoutes

/-- C5 counterexample: a trade on a graduated token does not fail with
`PoolGraduated` (no such error exists in the repository) — when the Jupiter
swap succeeds the handler answers 200 and still creates a Trade record. -/
theorem C5_counterexample_graduated_trade_completes :
    (registerRoutes.tradeHandler (some registerRoutes.graduatedToken) true true 10).status
        = 200
    ∧ (registerRoutes.tradeHandler (some registerRoutes.graduatedToken) true true 10).tradeCreated
        = true :=
  ⟨rfl, rfl⟩

/-- C5 amended: a trade on a graduated token is not rejected with a
`PoolGraduated` error; the handler routes it to the external Jupiter DEX and,
when the swap succeeds, creates a Trade record and answers 200 — it answers
400 (creating no Trade record) exactly when the Jupiter swap fails. -/
theorem C5_amended_graduated_routes_to_jupiter
    (t : registerRoutes.TokenRec) (js ss : Bool) (a : ℚ)
    (hg : t.isGraduated = true) :
    (registerRoutes.tradeHandler (some t) js ss a).tradeCreated = js
    ∧ (registerRoutes.tradeHandler (some t) js ss a).status
        = (if js then 200 else 400) := by
  cases js <;> simp [registerRoutes.tradeHandler, hg]

/-- C5 amended, witness on a concrete graduated token. -/
theorem C5_amended_graduated_routes_to_jupiter_witness :
    (registerRoutes.tradeHandler (some registerRoutes.graduatedToken) true true 10).tradeCreated
        = true
    ∧ (registerRoutes.tradeHandler (some registerRoutes.graduatedToken) true true 10).status
        = (if true then 200 else 400) :=
  C5_amended_graduated_routes_to_jupiter registerRoutes.graduatedToken true true 10 rfl

/-- C3 counterexample: the collected-quote value the trade handler reports
(and stores as graduation progress) is recomputed as `15.5 + amountIn` for
each trade, not accumulated: after a successful trade with `amountIn = 10` it
is `25.5`, and after the next successful trade with `amountIn = 1` it is
`16.5 < 25.5` — it decreased across successfully executed trades. -/
theorem C3_counterexample_collected_decreases :
    (registerRoutes.tradeHandler (some registerRoutes.freshToken) true true 10).tradeCreated
        = true
    ∧ (registerRoutes.tradeHandler (some registerRoutes.freshToken) true true 1).tradeCreated
        = true
    ∧ (registerRoutes.tradeHandler (some registerRoutes.freshToken) true true 10).solCollected
        = 25.5
    ∧ (registerRoutes.tradeHandler (some registerRoutes.freshToken) true true 1).solCollected
        = 16.5
    ∧ (registerRoutes.tradeHandler (some registerRoutes.freshToken) true true 1).solCollected
        < (registerRoutes.tradeHandler (some registerRoutes.freshToken) true true 10).solCollected := by
  refine ⟨rfl, rfl, ?_, ?_, ?_⟩ <;>
    norm_num [registerRoutes.tradeHandler, registerRoutes.freshToken]

/-- C3 amended: the collected-quote value reported for each successful
bonding-curve trade equals the fixed base `15.5` plus that trade's
`amountIn` — it is not accumulated across trades — hence it is monotone in
the trade's `amountIn` (and non-decreasing across a sequence of trades whose
amounts are non-decreasing), but across an arbitrary sequence of trades it
decreases whenever a trade is smaller than its predecessor. -/
theorem C3_amended_collected_is_per_trade
    (t : registerRoutes.TokenRec) (js : Bool) (a b : ℚ)
    (hf : t.isGraduated = false) (hab : a ≤ b) :
    (registerRoutes.tradeHandler (some t) js true a).solCollected = 15.5 + a
    ∧ (registerRoutes.tradeHandler (some t) js true a).solCollected
        ≤ (registerRoutes.tradeHandler (some t) js true b).solCollected := by
  constructor
  · simp [registerRoutes.tradeHandler, hf]
  · simp [registerRoutes.tradeHandler, hf]
    linarith

/-- C3 amended, witness on a concrete fresh token with amounts `1 ≤ 10`. -/
theorem C3_amended_collected_is_per_trade_witness :
    (registerRoutes.tradeHandler (some registerRoutes.freshToken) true true 1).solCollected
        = 15.5 + 1
    ∧ (registerRoutes.tradeHandler (some registerRoutes.freshToken) true true 1).solCollected
        ≤ (registerRoutes.tradeHandler (some registerRoutes.freshToken) true true 10).solCollected :=
  C3_amended_collected_is_per_trade registerRoutes.freshToken true 1 10 rfl (by norm_num)

/-! ## RaydiumTradingService (src/unnamed/part_012)

`executeTrade` (lines 180-262) computes the constant-product output at lines
205-219, derives `minAmountOut = amountOut * (1 - slippage / 100)` at line
222, and returns `success: true` with `amountOut: minAmountOut` at lines
243-249.  There is no comparison of `amountOut` against a caller-supplied
minimum and no `SlippageExceeded` error anywhere in the repository. -/

namespace RaydiumTradingService

/-- `calculatePriceImpact` (lines 90-103). -/
def calculatePriceImpact (amountIn reserveIn reserveOut : ℚ) (isBuy : Bool) : ℚ :=
  if isBuy then amountIn / (reserveIn + amountIn) * 100
  else amountIn / (reserveOut + amountIn) * 100

/-- The fields of `TradeResult` (lines 12-19) produced by the trade math. -/
structure TradeResult where
  success : Bool
  amountIn : ℚ
  amountOut : ℚ
  priceImpact : ℚ
deriving DecidableEq

/-- `executeTrade` (lines 180-262) with the pool reserves fetched at line 192
passed explicitly; the call at lines 198-203 passes the reserves swapped by
`isBuy` into `calculatePriceImpact`. -/
def executeTrade (baseReserve quoteReserve amountIn slippage : ℚ)
    (isBuy : Bool) : TradeResult :=
  let priceImpact := calculatePriceImpact amountIn
    (if isBuy then quoteReserve else baseReserve)
    (if isBuy then baseReserve else quoteReserve) isBuy
  let k := baseReserve * quoteReserve
  let amountOut := if isBuy then baseReserve - k / (quoteReserve + amountIn)
    else quoteReserve - k / (baseReserve + amountIn)
  let minAmountOut := amountOut * (1 - slippage / 100)
  { success := true, amountIn := amountIn, amountOut := minAmountOut,
    priceImpact := priceImpact }

end RaydiumTradingService

/-- C6 counterexample: with pool reserves `(1073000000, 30)`, a buy of `10`
at `slippage = 1`% computes the constant-product output `268250000`, yet the
successful trade returns `amountOut = 265567500` — the value reduced by the
slippage tolerance, not the full computed output — and no `SlippageExceeded`
failure path exists. -/
theorem C6_counterexample_returns_reduced_amount :
    ((1073000000 : ℚ) - 1073000000 * 30 / (30 + 10)) = 268250000
    ∧ (RaydiumTradingService.executeTrade 1073000000 30 10 1 true).success = true
    ∧ (RaydiumTradingService.executeTrade 1073000000 30 10 1 true).amountOut
        = 265567500
    ∧ (RaydiumTradingService.executeTrade 1073000000 30 10 1 true).amountOut
        < 268250000 := by
  refine ⟨by norm_num, rfl, ?_, ?_⟩ <;>
    norm_num [RaydiumTradingService.executeTrade,
      RaydiumTradingService.calculatePriceImpact]

/-- C6 amended: `executeTrade` never fails with `SlippageExceeded` (no such
check or error exists); it always succeeds, computes
`minAmountOut = amountOut * (1 - slippage / 100)` from the caller's slippage
percentage, and returns that reduced value as the trade's `amountOut` — so
whenever the computed constant-product output is positive and the slippage is
positive, the returned amount is strictly below the computed output. -/
theorem C6_amended_slippage_reduces_output (b q a s : ℚ)
    (hout : 0 < b - b * q / (q + a)) (hs : 0 < s) :
    (RaydiumTradingService.executeTrade b q a s true).success = true
    ∧ (RaydiumTradingService.executeTrade b q a s true).amountOut
        = (b - b * q / (q + a)) * (1 - s / 100)
    ∧ (RaydiumTradingService.executeTrade b q a s true).amountOut
        < b - b * q / (q + a) := by
  refine ⟨rfl, ?_, ?_⟩
  · simp [RaydiumTradingService.executeTrade]
  · simp only [RaydiumTradingService.executeTrade]
    have key : ∀ out : ℚ, 0 < out → 0 < s → out * (1 - s / 100) < out := by
      intro out h1 h2
      have : 0 < out * (s / 100) := by positivity
      nlinarith
    have := key (b - b * q / (q + a)) hout hs
    calc (if true = true then b - b * q / (q + a)
            else q - b * q / (b + a)) * (1 - s / 100)
        = (b - b * q / (q + a)) * (1 - s / 100) := by norm_num
      _ < b - b * q / (q + a) := this

/-- C6 amended, witness at reserves `(1073000000, 30)`, buy `10`, slippage
`1`%. -/
theorem C6_amended_slippage_reduces_output_witness :
    (RaydiumTradingService.executeTrade 1073000000 30 10 1 true).success = true
    ∧ (RaydiumTradingService.executeTrade 1073000000 30 10 1 true).amountOut
        = ((1073000000 : ℚ) - 1073000000 * 30 / (30 + 10)) * (1 - 1 / 100)
    ∧ (RaydiumTradingService.executeTrade 1073000000 30 10 1 true).amountOut
        < 1073000000 - 1073000000 * 30 / (30 + 10) :=
  C6_amended_slippage_reduces_output 1073000000 30 10 1 (by norm_num) (by norm_num)

/-! ## PumpTradingEngine (src/unnamed/part_013)

`getTradeQuote` (lines 34-76) is the pure quote function: it computes the
constant-product output for either side from the pool's
`(baseReserve, quoteReserve)` together with `priceImpact` and `newPrice`
(lines 42-62). -/

namespace PumpTradingEngine

/-- The quote fields computed at lines 42-71 (the fields echoed from the pool
record are omitted). -/
structure Quote where
  amountOut : ℚ
  priceImpact : ℚ
  newPrice : ℚ
deriving DecidableEq

/-- `getTradeQuote` (lines 34-76) with the pool reserves fetched at lines
36-42 passed explicitly. -/
def getTradeQuote (baseReserve quoteReserve amountIn : ℚ) (isBuy : Bool) : Quote :=
  let k := baseReserve * quoteReserve
  if isBuy then
    let newQuoteReserve := quoteReserve + amountIn
    let newBaseReserve := k / newQuoteReserve
    let amountOut := baseReserve - newBaseReserve
    { amountOut := amountOut,
      priceImpact := amountIn / quoteReserve * 100,
      newPrice := (quoteReserve + amountIn) / (baseReserve - amountOut) }
  else
    let newBaseReserve := baseReserve + amountIn
    let newQuoteReserve := k / newBaseReserve
    let amountOut := quoteReserve - newQuoteReserve
    { amountOut := amountOut,
      priceImpact := amountIn / baseReserve * 100,
      newPrice := (quoteReserve - amountOut) / (baseReserve + amountIn) }

/-- Round trip of the claim: buy `x` quote units, then sell the received
token amount back against the post-buy reserves — which are exactly the
`newBaseReserve = k / (quoteReserve + x)` (equal to `baseReserve - amountOut`)
and `newQuoteReserve = quoteReserve + x` that the buy quote itself computes.
The result is the quote amount the round trip returns. -/
def roundTrip (baseReserve quoteReserve x : ℚ) : ℚ :=
  let buyOut := (getTradeQuote baseReserve quoteReserve x true).amountOut
  (getTradeQuote (baseReserve - buyOut) (quoteReserve + x) buyOut false).amountOut

end PumpTradingEngine

/-- C8: for every pool state with positive reserves and every quote amount
`x > 0`, with zero fee, buying `x` and immediately selling the received
token amount back returns a quote amount `≤ x` (in exact arithmetic the
round trip returns exactly `x`, so the bound holds with equality). -/
theorem C8_round_trip_returns_at_most_x (b q x : ℚ)
    (hb : 0 < b) (hq : 0 < q) (hx : 0 < x) :
    PumpTradingEngine.roundTrip b q x ≤ x := by
  have hqx : q + x ≠ 0 := by positivity
  have hb0 : b ≠ 0 := ne_of_gt hb
  have heq : PumpTradingEngine.roundTrip b q x = x := by
    simp only [PumpTradingEngine.roundTrip, PumpTradingEngine.getTradeQuote,
      if_true]
    field_simp
  exact le_of_eq heq

/-- C8 witness at the default pool state `(1073000000, 30)` with `x = 10`. -/
theorem C8_round_trip_returns_at_most_x_witness :
    PumpTradingEngine.roundTrip 1073000000 30 10 ≤ 10 :=
  C8_round_trip_returns_at_most_x 1073000000 30 10
    (by norm_num) (by norm_num) (by norm_num)

/-! ## MemStorage (src/server/storage.ts)

`getTrades` (lines 141-145) filters the in-memory trades map by `tokenId`
and sorts with the comparator
`(a, b) => new Date(b.createdAt).getTime() - new Date(a.createdAt).getTime()`,
i.e. stably by descending creation time.  `updatePoolReserves` (lines
293-304) looks the pool up by mint via `getPoolByMint` (lines 267-274, first
match in insertion order), overwrites the two reserves, recomputes
`currentPrice = quoteReserve / (totalSupply - baseReserve)` and stores the
record back under its id; a missing pool returns `undefined` and changes
nothing. -/

namespace MemStorage

/-- The Trade columns `getTrades` consults (shared/schema.ts lines 29-39);
`createdAt` is the epoch-millisecond value read by
`new Date(...).getTime()`. -/
structure Trade where
  id : ℕ
  tokenId : ℕ
  createdAt : ℕ
deriving DecidableEq

/-- `getTrades` (lines 141-145); JavaScript `Array.prototype.sort` is a
stable sort, modelled by `List.mergeSort` on the same descending-`createdAt`
order. -/
def getTrades (trades : List Trade) (tokenId : ℕ) : List Trade :=
  (trades.filter (fun t => t.tokenId == tokenId)).mergeSort
    (fun a b => b.createdAt ≤ a.createdAt)

/-- The Pool columns (shared/schema.ts lines 66-76), numeric columns as
exact rationals. -/
structure Pool where
  id : ℕ
  tokenMint : String
  baseReserve : ℚ
  quoteReserve : ℚ
  totalSupply : ℚ
  currentPrice : ℚ
  volume24h : ℚ
  isGraduated : Bool
deriving DecidableEq

/-- `getPool` (lines 263-265): `this.pools.get(id)` on the map keyed by the
id assigned in `createPool`. -/
def getPool (pools : List Pool) (id : ℕ) : Option Pool :=
  pools.find? (fun p => p.id == id)

/-- `getPoolByMint` (lines 267-274): the first pool in insertion order whose
`tokenMint` matches. -/
def getPoolByMint (pools : List Pool) (tokenMint : String) : Option Pool :=
  pools.find? (fun p => p.tokenMint == tokenMint)

/-- `updatePoolReserves` (lines 293-304), returning the updated pool map
together with the pool the method returns (`undefined` on a miss). -/
def updatePoolReserves (pools : List Pool) (tokenMint : String)
    (baseReserve quoteReserve : ℚ) : List Pool × Option Pool :=
  match getPoolByMint pools tokenMint with
  | some pool =>
      let updated := { pool with
        baseReserve := baseReserve,
        quoteReserve := quoteReserve,
        currentPrice := quoteReserve / (pool.totalSupply - baseReserve) }
      (pools.map (fun p => if p.id = pool.id then updated else p), some updated)
  | none => (pools, none)

/-- Storing a record under an id that occurs in the map makes the lookup of
that id return the stored record. -/
theorem getPool_map_set (pools : List Pool) (i : ℕ) (u : Pool)
    (hu : u.id = i) (hex : ∃ p ∈ pools, p.id = i) :
    getPool (pools.map (fun p => if p.id = i then u else p)) i = some u := by
  induction pools with
  | nil => simp at hex
  | cons x xs ih =>
    rw [List.map_cons]
    by_cases hx : x.id = i
    · rw [if_pos hx]
      exact List.find?_cons_of_pos _ (by simp [hu])
    · rw [if_neg hx, getPool, List.find?_cons_of_neg _ (by simp [hx])]
      have hex2 : ∃ p ∈ xs, p.id = i := by
        rcases hex with ⟨p, hp, hpi⟩
        rcases List.mem_cons.mp hp with h | h
        · exact absurd (h ▸ hpi) hx
        · exact ⟨p, h, hpi⟩
      exact ih hex2

end MemStorage

/-- C9: `getTrades` returns exactly the Trade records of the given pool (a
permutation of the filter of the trades map, equivalently membership exactly
for that pool's trades), ordered newest-first by creation time. -/
theorem C9_getTrades_exactly_pool_trades_newest_first
    (trades : List MemStorage.Trade) (tokenId : ℕ) :
    (MemStorage.getTrades trades tokenId).Perm
        (trades.filter (fun t => t.tokenId == tokenId))
    ∧ (∀ t : MemStorage.Trade,
        t ∈ MemStorage.getTrades trades tokenId ↔ t ∈ trades ∧ t.tokenId = tokenId)
    ∧ List.Pairwise (fun a b : MemStorage.Trade => b.createdAt ≤ a.createdAt)
        (MemStorage.getTrades trades tokenId) := by
  refine ⟨List.mergeSort_perm _ _, ?_, ?_⟩
  · intro t
    show t ∈ (trades.filter (fun t => t.tokenId == tokenId)).mergeSort
        (fun a b => b.createdAt ≤ a.createdAt) ↔ _
    rw [(List.mergeSort_perm _ _).mem_iff, List.mem_filter]
    simp
  · have h := @List.sorted_mergeSort MemStorage.Trade
      (fun a b => b.createdAt ≤ a.createdAt)
      (by intro a b c; simp; omega) (by intro a b; simp; omega)
      (trades.filter (fun t => t.tokenId == tokenId))
    simpa [MemStorage.getTrades, List.Sorted] using h

/-- C10: after a successful `updatePoolReserves(tokenMint, b, q)` the stored
pool carries exactly the supplied reserves and
`currentPrice = q / (totalSupply - b)`; when no pool with that mint exists
the call returns `undefined` and leaves the pool map unchanged. -/
theorem C10_updatePoolReserves_stores_reserves_and_price
    (pools : List MemStorage.Pool) (m : String) (b q : ℚ) :
    (MemStorage.getPoolByMint pools m = none →
      MemStorage.updatePoolReserves pools m b q = (pools, none))
    ∧ (∀ p, MemStorage.getPoolByMint pools m = some p →
        ∃ u, (MemStorage.updatePoolReserves pools m b q).2 = some u
          ∧ u.baseReserve = b
          ∧ u.quoteReserve = q
          ∧ u.totalSupply = p.totalSupply
          ∧ u.currentPrice = q / (p.totalSupply - b)
          ∧ MemStorage.getPool (MemStorage.updatePoolReserves pools m b q).1 p.id
              = some u) := by
  constructor
  · intro h
    simp [MemStorage.updatePoolReserves, h]
  · intro p hp
    simp only [MemStorage.updatePoolReserves, hp]
    refine ⟨_, rfl, rfl, rfl, rfl, rfl, ?_⟩
    have hmem : p ∈ pools := List.mem_of_find?_eq_some hp
    exact MemStorage.getPool_map_set pools p.id _ rfl ⟨p, hmem, rfl⟩

/-- A pool record with the schema defaults (shared/schema.ts lines 66-76). -/
def seedPool : MemStorage.Pool :=
  { id := 1, tokenMint := "mint1", baseReserve := 1073000000,
    quoteReserve := 30, totalSupply := 1000000000, currentPrice := 0.000028,
    volume24h := 0, isGraduated := false }

/-- C10 witness: updating the one-pool map stores the supplied reserves and
the recomputed price. -/
theorem C10_updatePoolReserves_stores_reserves_and_price_witness :
    ∃ u, (MemStorage.updatePoolReserves [seedPool] "mint1" 5 7).2 = some u
      ∧ u.baseReserve = 5
      ∧ u.quoteReserve = 7
      ∧ u.totalSupply = seedPool.totalSupply
      ∧ u.currentPrice = 7 / (seedPool.totalSupply - 5)
      ∧ MemStorage.getPool (MemStorage.updatePoolReserves [seedPool] "mint1" 5 7).1
          seedPool.id = some u :=
  (C10_updatePoolReserves_stores_reserves_and_price [seedPool] "mint1" 5 7).2
    seedPool (by rfl)

/-! ## RaydiumLaunchpadService (src/raydium-launchpad.ts)

`startPolling` (lines 163-175) fires `checkPoolStatus` every 15 seconds with
`setInterval`, without waiting for the previous asynchronous run to finish,
so several runs for the same pool can be in flight at once on the
single-threaded event loop, interleaving at `await` points.
`checkPoolStatus` (lines 177-210) returns early when `poolData.migrated` is
set (line 179), then `await`s the on-chain pool info (line 189 — a
suspension point), stores the observed `quoteCollected` (lines 196-197) and,
when it reaches `fundraisingGoal`, calls `migrateToAmm` (lines 202-205).
`migrateToAmm` (lines 212-263) re-checks `migrated` at entry (line 214),
`await`s the migration transaction — the migration emission — at lines
226-239, and only after it completes sets `poolData.migrated = true`
(line 242).  One in-flight run therefore has four steps separated by
`await`s: the entry guard; the observation, threshold test and re-check
(which share one synchronous section); the emission; the flag write. -/

namespace RaydiumLaunchpadService

/-- Program points of one in-flight `checkPoolStatus` run, split at its
`await` suspension points. -/
inductive TaskPc
  | start
  | observe
  | emitTx
  | setFlag
  | finished
deriving DecidableEq

/-- The `PoolData` fields the graduation logic touches (lines 123-134),
plus a count of migration emissions made so far (calls into
`raydium.launchpad.migrateToAmm`, lines 226-229). -/
structure MigState where
  quoteCollected : ℚ
  fundraisingGoal : ℚ
  migrated : Bool
  emissions : ℕ
deriving DecidableEq

/-- One in-flight run: its program counter and the `quoteCollected` value it
observes on chain at line 196. -/
structure Task where
  pc : TaskPc
  obs : ℚ
deriving DecidableEq

/-- Advance one in-flight run by one step.  `start` is the entry guard at
line 179; `observe` covers lines 196-205 together with the `migrateToAmm`
entry guard at line 214 (no `await` separates them); `emitTx` is the awaited
migration transaction; `setFlag` is line 242. -/
def migStep (s : MigState) (t : Task) : MigState × Task :=
  match t.pc with
  | .start =>
      if s.migrated then (s, { t with pc := .finished })
      else (s, { t with pc := .observe })
  | .observe =>
      let s1 := { s with quoteCollected := t.obs }
      if t.obs ≥ s.fundraisingGoal ∧ s.migrated = false then
        (s1, { t with pc := .emitTx })
      else (s1, { t with pc := .finished })
  | .emitTx =>
      ({ s with emissions := s.emissions + 1 }, { t with pc := .setFlag })
  | .setFlag =>
      ({ s with migrated := true }, { t with pc := .finished })
  | .finished => (s, t)

/-- Run a schedule: each entry advances the indicated in-flight run by one
step (the event loop interleaves runs only at `await` points, which is
exactly the granularity of `migStep`). -/
def runSchedule : MigState → List Task → List ℕ → MigState × List Task
  | s, ts, [] => (s, ts)
  | s, ts, i :: rest =>
    match ts[i]? with
    | none => runSchedule s ts rest
    | some t =>
        let st := migStep s t
        runSchedule st.1 (ts.set i st.2) rest

/-- Run one `checkPoolStatus` invocation to completion with no interleaving
(a run takes at most four steps). -/
def runToCompletion (s : MigState) (t : Task) : MigState :=
  let a := migStep s t
  let b := migStep a.1 a.2
  let c := migStep b.1 b.2
  (migStep c.1 c.2).1

/-- Run `n` sequential (non-interleaved) `checkPoolStatus` invocations, each
observing the on-chain value `obs`. -/
def runSequential (s : MigState) (obs : ℚ) : ℕ → MigState
  | 0 => s
  | n + 1 => runSequential (runToCompletion s { pc := .start, obs := obs }) obs n

/-- A pool whose fundraising goal (69 quote units) has been reached on chain
(observed value 70) and which has not migrated yet. -/
def crossedPool : MigState :=
  { quoteCollected := 15.5, fundraisingGoal := 69, migrated := false,
    emissions := 0 }

end RaydiumLaunchpadService

/-- C4 counterexample: two concurrent `checkPoolStatus` runs that both
observe `quoteCollected = 70 ≥ 69 = fundraisingGoal` before either completes
`migrateToAmm` both pass the `migrated` guard (the flag is only written
after the awaited migration transaction) and the pool emits two migrations
instead of at most one. -/
theorem C4_counterexample_double_emission :
    (RaydiumLaunchpadService.runSchedule RaydiumLaunchpadService.crossedPool
      [{ pc := .start, obs := 70 }, { pc := .start, obs := 70 }]
      [0, 1, 0, 1, 0, 1, 0, 1]).1.emissions = 2 := by
  decide

/-- C4 amended: the `migrated` flag is read before the awaited migration
transaction and written only after it completes, so at-most-once emission
holds only for non-interleaved runs: for any number of sequential
`checkPoolStatus` invocations on a pool that starts unmigrated, at most one
migration is emitted (exactly one when the observed collection has crossed
the goal), while interleaved runs that all pass the guard before the first
flag write can each emit. -/
theorem C4_amended_sequential_at_most_once
    (s : RaydiumLaunchpadService.MigState) (obs : ℚ) (n : ℕ)
    (hm : s.migrated = false) (he : s.emissions = 0) :
    (RaydiumLaunchpadService.runSequential s obs n).emissions ≤ 1 := by
  induction n generalizing s with
  | zero => simp [RaydiumLaunchpadService.runSequential, he]
  | succ n ih =>
    rw [RaydiumLaunchpadService.runSequential]
    by_cases hc : obs ≥ s.fundraisingGoal
    · have hrun : RaydiumLaunchpadService.runToCompletion s
          { pc := .start, obs := obs }
          = { quoteCollected := obs, fundraisingGoal := s.fundraisingGoal,
              migrated := true, emissions := s.emissions + 1 } := by
        simp [RaydiumLaunchpadService.runToCompletion,
          RaydiumLaunchpadService.migStep, hm, hc]
      rw [hrun]
      have hstay : ∀ (m : ℕ) (s2 : RaydiumLaunchpadService.MigState),
          s2.migrated = true →
          RaydiumLaunchpadService.runSequential s2 obs m = s2 := by
        intro m
        induction m with
        | zero => intro s2 _; rfl
        | succ m ihm =>
          intro s2 h2
          rw [RaydiumLaunchpadService.runSequential]
          have : RaydiumLaunchpadService.runToCompletion s2
              { pc := .start, obs := obs } = s2 := by
            simp [RaydiumLaunchpadService.runToCompletion,
              RaydiumLaunchpadService.migStep, h2]
          rw [this]
          exact ihm s2 h2
      rw [hstay n _ rfl]
      simp [he]
    · have hrun : RaydiumLaunchpadService.runToCompletion s
          { pc := .start, obs := obs }
          = { quoteCollected := obs, fundraisingGoal := s.fundraisingGoal,
              migrated := false, emissions := s.emissions } := by
        simp [RaydiumLaunchpadService.runToCompletion,
          RaydiumLaunchpadService.migStep, hm, hc]
      rw [hrun]
      exact ih _ rfl he

/-- C4 amended, witness: three sequential checks on a crossed, unmigrated
pool emit at most one migration. -/
theorem C4_amended_sequential_at_most_once_witness :
    (RaydiumLaunchpadService.runSequential RaydiumLaunchpadService.crossedPool
      70 3).emissions ≤ 1 :=
  C4_amended_sequential_at_most_once RaydiumLaunchpadService.crossedPool 70 3
    rfl rfl
